import Mathlib

/-!
Verification of the FAQ-HuddleUp retrieval-and-response orchestration core.

The definitions below are a shallow embedding of the Python backend:
`backend/main.py` (`ask_faq`), `backend/semantic_search.py`
(`SemanticSearchService.semantic_search`, `analyze_user_profile`) and
`backend/openai_service.py` (`generate_discovery_response_with_actions`).
External collaborators (the Pinecone vector index, the Supabase store, the
OpenAI completion client) are modelled as oracle outcomes supplied through
an environment record; every piece of control flow, string manipulation and
threshold arithmetic that lives in the repository itself is translated
directly from the source.  Python `float` arithmetic is modelled with `ℚ`
(the only operations involved are subtraction of decimal literals, `max`,
and comparisons, at inputs where rounding cannot change any comparison in
question).  Python strings are modelled with Lean `String`, and the handful
of string operations the code uses (`lower`, `strip`, `in`, `split`,
`join`, slicing, `startswith`) are given explicit, kernel-computable
translations on the underlying character lists.
-/

namespace HuddleUp

/-! ## String primitives mirroring the Python operations used by the code -/

/-- Lower-case a single character exactly as Python `str.lower` does on the
ASCII range (all strings occurring in the checked code paths are ASCII). -/
def lcChar (c : Char) : Char :=
  if 65 ≤ c.toNat ∧ c.toNat ≤ 90 then Char.ofNat (c.toNat + 32) else c

/-- Python `s.lower()`. -/
def lowerStr (s : String) : String := ⟨s.data.map lcChar⟩

/-- Contiguous-substring test on character lists. -/
def infixOfCL (needle : List Char) : List Char → Bool
  | [] => needle.isEmpty
  | c :: cs => needle.isPrefixOf (c :: cs) || infixOfCL needle cs

/-- Python `needle in hay` (contiguous substring containment). -/
def containsSub (hay needle : String) : Bool :=
  infixOfCL needle.data hay.data

/-- Characters Python `str.strip()` removes (ASCII whitespace suffices for
the strings the code manipulates). -/
def isWsChar (c : Char) : Bool :=
  c = ' ' ∨ c = '\t' ∨ c = '\n' ∨ c = '\r'

/-- Python `s.strip()`. -/
def pyStrip (s : String) : String :=
  ⟨((s.data.dropWhile isWsChar).reverse.dropWhile isWsChar).reverse⟩

/-- Python `len(s)` (count of characters). -/
def strLen (s : String) : Nat := s.data.length

/-- Split a character list on a separator character; mirrors Python
`s.split(sep)` for a one-character separator. -/
def splitOnChar (sep : Char) : List Char → List (List Char)
  | [] => [[]]
  | c :: cs =>
    let r := splitOnChar sep cs
    if c = sep then [] :: r
    else
      match r with
      | [] => [[c]]
      | h :: t => (c :: h) :: t

/-- Python `s.split('\n')`. -/
def splitLinesStr (s : String) : List String :=
  (splitOnChar '\n' s.data).map String.mk

/-- Python `' '.join(xs)`. -/
def joinSpace (xs : List String) : String :=
  ⟨List.intercalate [' '] (xs.map String.data)⟩

/-- Python `s[:n]` for `n ≥ 0`. -/
def takeStr (n : Nat) (s : String) : String := ⟨s.data.take n⟩

/-- Python `s.startswith(p)`. -/
def startsWithStr (p s : String) : Bool :=
  p.data.isPrefixOf s.data

/-- Python truthiness of a string: non-empty. -/
def strTruthy (s : String) : Bool := s ≠ ""

/-! ## Semantic-search threshold policy
(`backend/semantic_search.py`, `SemanticSearchService.semantic_search`,
lines 191–211) -/

/-- The pricing keyword list of `semantic_search` (line 193). -/
def pricingKeywords : List String :=
  ["price", "pricing", "cost", "plan", "plans", "$", "fee", "subscription", "paid"]

/-- Line 194: `any(keyword in query.lower() for keyword in pricing_keywords)`. -/
def isPricingQuery (query : String) : Bool :=
  pricingKeywords.any (fun kw => containsSub (lowerStr query) kw)

/-- Python `max(a, b)` on numbers, written so that it computes by kernel
reduction. -/
def pyMax (a b : ℚ) : ℚ := if a ≤ b then b else a

/-- Lines 192–195: the effective similarity threshold used to filter
Pinecone matches.  For pricing queries the threshold is
`max(0.1, similarity_threshold - 0.2)`; otherwise it is unchanged. -/
def adjustedThreshold (query : String) (similarityThreshold : ℚ) : ℚ :=
  if isPricingQuery query then pyMax 0.1 (similarityThreshold - 0.2)
  else similarityThreshold

/-- A raw match returned by the Pinecone index (id and similarity score);
the metadata enrichment performed on accepted matches does not affect
acceptance and is not needed by the properties below. -/
structure PineMatch where
  id : String
  score : ℚ
deriving DecidableEq, Repr

/-- Lines 208–211: the matches retained by the semantic rung — exactly
those whose score is at least the adjusted threshold, in order. -/
def acceptedMatches (query : String) (similarityThreshold : ℚ)
    (ms : List PineMatch) : List PineMatch :=
  ms.filter (fun m => adjustedThreshold query similarityThreshold ≤ m.score)

/-! ## Semantic-rung content extraction (`backend/main.py`, lines 137–155) -/

/-- A result dict as handed to `ask_faq` by
`semantic_search_service.semantic_search`: the fields `ask_faq` reads with
`.get(...)` (each `Option`, since `dict.get` yields `None` when absent). -/
structure SearchMatch where
  id : Option String
  similarity : Option ℚ
  content : Option String
  text : Option String
  answer : Option String
  metaContent : Option String
  metaText : Option String
  metaAnswer : Option String
deriving DecidableEq, Repr

/-- Lines 141–148: the `content_sources` list, in the exact order the code
builds it — content, text, answer, then the same three names inside the
metadata mapping. -/
def contentSources (m : SearchMatch) : List (Option String) :=
  [m.content, m.text, m.answer, m.metaContent, m.metaText, m.metaAnswer]

/-- Line 152: `if content and len(str(content).strip()) > 10` — the field is
present, truthy, and its trimmed length strictly exceeds 10. -/
def usableContent (o : Option String) : Bool :=
  match o with
  | none => false
  | some s => strTruthy s && 10 < strLen (pyStrip s)

/-- Lines 150–155: scan `content_sources` in order, committing to the first
usable field (trimmed), never consulting a later one. -/
def firstUsable : List (Option String) → Option String
  | [] => none
  | o :: rest =>
    if usableContent o then some (pyStrip (o.getD "")) else firstUsable rest

/-- Lines 137–155: `ask_faq` inspects only `results[0]` (the single best
match) and extracts its candidate answer. -/
def semanticCandidate (results : List SearchMatch) : Option String :=
  match results with
  | [] => none
  | best :: _ => firstUsable (contentSources best)

/-! ## The answer-resolver ladder (`backend/main.py`, `ask_faq`,
lines 109–292)

External collaborators are oracles: each call either raises (the Python
`except` branches) or returns a value.  The embedding additionally records
the sequence of collaborator calls made, so that claims about *when*
collaborators are invoked are statable. -/

/-- Outcome of one collaborator call: the call raised, or returned `v`. -/
inductive CallOutcome (α : Type) where
  | raised
  | returned (v : α)
deriving DecidableEq, Repr

/-- What `semantic_search` returned: its `success` flag and result list. -/
structure SemanticReturn where
  success : Bool
  results : List SearchMatch
deriving DecidableEq, Repr

/-- A row of the `faq_entries` table as returned by
`db_service.search_knowledge_base` (fields read via `dict.get`). -/
structure FaqRow where
  question : Option String
  answer : Option String
  category : Option String
deriving DecidableEq, Repr

/-- A row of the `documents` table. -/
structure DocRow where
  title : Option String
  content : Option String
deriving DecidableEq, Repr

/-- The dict returned by `db_service.search_knowledge_base`. -/
structure KnowledgeBaseReturn where
  faqEntries : List FaqRow
  documents : List DocRow
  documentChunks : List DocRow
deriving DecidableEq, Repr

/-- Collaborator environment for one `ask_faq` execution: the availability
flags checked by `main.py` and the outcome of each external call the ladder
may make. -/
structure ResolverEnv where
  semanticAvailable : Bool
  databaseAvailable : Bool
  openaiAvailable : Bool
  semanticSearch : CallOutcome SemanticReturn
  knowledgeSearch : CallOutcome KnowledgeBaseReturn
  enhance : CallOutcome String
  guidedGenerate : CallOutcome String
  directGenerate : CallOutcome String
  saveOk : Bool

/-- Provenance entries appended to `sources` by `ask_faq`. -/
inductive SourceTag where
  | knowledgeBaseSemantic (similarity : Option ℚ) (id : Option String)
  | semanticGuided (matchesFound : Nat) (avgSimilarity : ℚ)
  | faqTraditional (question : Option String) (category : Option String)
  | documentTraditional (title : Option String)
  | openaiGenerated
deriving DecidableEq, Repr

/-- One collaborator invocation, with the argument it was given. -/
inductive CallEvent where
  | semanticSearch (query : String)
  | enhanceCall (query : String)
  | guidedGenerateCall (query : String)
  | knowledgeBaseSearch (query : String)
  | directGenerateCall (query : String)
  | saveChat (ok : Bool)
deriving DecidableEq, Repr

/-- The mutable locals of `ask_faq` (`response`, `sources`,
`search_method`), plus the trace of collaborator calls made so far. -/
structure ResolverState where
  response : String
  sources : List SourceTag
  searchMethod : String
  calls : List CallEvent
deriving DecidableEq, Repr

/-- Line 198 of `main.py`:
`sum(r.get('similarity', 0) for r in results[:3]) / min(3, len(results))`. -/
def avgTopSimilarity (results : List SearchMatch) : ℚ :=
  (((results.take 3).map (fun r => r.similarity.getD 0)).sum) /
    ((min 3 results.length : Nat) : ℚ)

/-- Lines 123–207: the semantic rung.  Starts from
`response = ""  sources = []  search_method = "fallback"` (lines 119–121)
and runs the semantic-search branch with all its inner fallbacks. -/
def semanticRung (env : ResolverEnv) (question : String) : ResolverState :=
  let st0 : ResolverState :=
    { response := "", sources := [], searchMethod := "fallback", calls := [] }
  if env.semanticAvailable then
    let st1 := { st0 with calls := [CallEvent.semanticSearch question] }
    match env.semanticSearch with
    | CallOutcome.raised => st1
    | CallOutcome.returned r =>
      match r.success, r.results with
      | true, best :: _ =>
        match firstUsable (contentSources best) with
        | some candidate =>
          let st2 := { st1 with
            response := candidate
            sources := [SourceTag.knowledgeBaseSemantic best.similarity best.id]
            searchMethod := "semantic_content" }
          if env.openaiAvailable then
            let st3 := { st2 with calls := st2.calls ++ [CallEvent.enhanceCall question] }
            match env.enhance with
            | CallOutcome.raised => st3
            | CallOutcome.returned v =>
              if strTruthy v ∧ v ≠ candidate then
                { st3 with response := v,
                           searchMethod := "semantic_content_ai_enhanced" }
              else st3
          else st2
        | none =>
          if env.openaiAvailable then
            let st2 := { st1 with calls := st1.calls ++ [CallEvent.guidedGenerateCall question] }
            match env.guidedGenerate with
            | CallOutcome.raised => st2
            | CallOutcome.returned v =>
              if strTruthy v then
                { st2 with
                  response := v
                  searchMethod := "semantic_guided_ai"
                  sources := st2.sources ++
                    [SourceTag.semanticGuided r.results.length (avgTopSimilarity r.results)] }
              else st2
          else st1
      | _, _ => st1
  else st0

/-- Lines 209–234: the keyword (traditional database) rung, reached only
when the semantic rung produced an empty `response`. -/
def keywordRung (env : ResolverEnv) (question : String) (st : ResolverState) :
    ResolverState :=
  if st.response = "" ∧ env.databaseAvailable then
    let st1 := { st with calls := st.calls ++ [CallEvent.knowledgeBaseSearch question] }
    match env.knowledgeSearch with
    | CallOutcome.raised => st1
    | CallOutcome.returned kb =>
      match kb.faqEntries with
      | faq :: _ =>
        { st1 with
          response := faq.answer.getD ""
          sources := st1.sources ++ [SourceTag.faqTraditional faq.question faq.category]
          searchMethod := "traditional_faq" }
      | [] =>
        match kb.documents with
        | doc :: _ =>
          { st1 with
            response := doc.content.getD ""
            sources := st1.sources ++ [SourceTag.documentTraditional doc.title]
            searchMethod := "traditional_document" }
        | [] => st1
  else st

/-- Line 250 of `main.py`. -/
def apologyNoResponse : String :=
  "I apologize, but I couldn\x27t find relevant information in our knowledge base and couldn\x27t generate a suitable response. Could you please rephrase your question or contact our support team for assistance?"

/-- Line 254 of `main.py`. -/
def apologyServiceError : String :=
  "I apologize, but I\x27m currently unable to process your question due to a technical issue. Please try again later or contact our support team."

/-- Line 257 of `main.py`. -/
def apologyNoServices : String :=
  "I apologize, but I couldn\x27t find relevant information in our knowledge base. Please try rephrasing your question or contact our support team for assistance."

/-- Line 289 of `main.py` (the top-level `except` handler text). -/
def apologyTopLevel : String :=
  "I apologize, but I encountered an error processing your question. Please try again."

/-- Lines 236–258: the generation rung, reached only with an empty
`response` after rungs 1–2. -/
def generationRung (env : ResolverEnv) (question : String) (st : ResolverState) :
    ResolverState :=
  if st.response = "" then
    if env.openaiAvailable then
      let st1 := { st with calls := st.calls ++ [CallEvent.directGenerateCall question] }
      match env.directGenerate with
      | CallOutcome.raised =>
        { st1 with response := apologyServiceError, searchMethod := "service_error" }
      | CallOutcome.returned v =>
        if strTruthy v then
          { st1 with response := v,
                     sources := st1.sources ++ [SourceTag.openaiGenerated],
                     searchMethod := "openai_direct" }
        else
          { st1 with response := apologyNoResponse,
                     searchMethod := "no_response_available" }
    else
      { st with response := apologyNoServices,
                searchMethod := "no_services_available" }
  else st

/-- Lines 266–277: best-effort persistence of the interaction; the save
outcome is recorded in the call trace and nothing else. -/
def persistStep (env : ResolverEnv) (st : ResolverState) : ResolverState :=
  if env.semanticAvailable then
    { st with calls := st.calls ++ [CallEvent.saveChat env.saveOk] }
  else st

/-- The `FAQResponse` model of `backend/models.py` (lines 11–17), restricted
to the fields `ask_faq` sets. -/
structure FAQResponse where
  answer : String
  success : Bool
  error : Option String
  sources : Option (List SourceTag)
  searchMethod : Option String
deriving DecidableEq, Repr

/-- Lines 109–284 of `main.py`: the body of `ask_faq` (inside the top-level
`try`), returning the `FAQResponse` together with the collaborator-call
trace. -/
def askFaq (env : ResolverEnv) (question : String) :
    FAQResponse × List CallEvent :=
  let st := persistStep env
    (generationRung env question (keywordRung env question (semanticRung env question)))
  ({ answer := st.response, success := true, error := none,
     sources := some st.sources, searchMethod := some st.searchMethod },
   st.calls)

/-- Lines 286–292: the top-level `except` handler.  `outerFailure` is the
exception (if any) escaping the whole body; the body itself catches every
collaborator failure, as `askFaq` shows. -/
def askFaqTop (outerFailure : Option String) (env : ResolverEnv)
    (question : String) : FAQResponse :=
  match outerFailure with
  | some e =>
    { answer := apologyTopLevel, success := false, error := some e,
      sources := none, searchMethod := none }
  | none => (askFaq env question).1

/-! ## Engagement tracker (`backend/semantic_search.py`,
`SemanticSearchService.analyze_user_profile`, lines 457–545) -/

/-- A stored `chat_messages` row for one session, in creation order; each
row holds one user/bot turn pair. -/
structure ChatRow where
  userMessage : String
  botResponse : String
deriving DecidableEq, Repr

/-- Lines 489–496: the `profile_indicators` table, in definition order. -/
def profileIndicators : List (String × List String) :=
  [("trainer", ["train", "training", "course", "curriculum", "lesson", "teach"]),
   ("manager", ["team", "manage", "lead", "department", "staff", "employee"]),
   ("hr", ["HR", "human resources", "onboard", "employee", "hire", "recruitment"]),
   ("consultant", ["client", "consult", "implement", "solution", "project"]),
   ("educator", ["student", "learn", "education", "school", "class"]),
   ("ld", ["L&D", "learning", "development", "skill", "capability"])]

/-- Lines 498–504: the `needs_indicators` table. -/
def needsIndicators : List (String × List String) :=
  [("collaboration", ["collaborate", "work together", "team", "share", "communicate"]),
   ("knowledge_sharing", ["knowledge", "expertise", "share", "document", "wiki"]),
   ("training_delivery", ["deliver", "training", "course", "program", "content"]),
   ("engagement", ["engage", "participation", "active", "involvement", "motivation"]),
   ("scalability", ["scale", "grow", "multiple", "many", "large", "expand"])]

/-- Lines 506–510: the `readiness_indicators` table. -/
def readinessIndicators : List (String × List String) :=
  [("interested", ["interested", "sounds good", "tell me more", "how much", "pricing"]),
   ("evaluating", ["compare", "alternative", "vs", "better than", "difference"]),
   ("ready", ["implement", "start", "try", "demo", "trial", "meeting", "call"])]

/-- Lines 515, 523, 530:
`sum(1 for keyword in keywords if keyword.lower() in combined_text.lower())`. -/
def keywordScore (combined : String) (keywords : List String) : Nat :=
  (keywords.filter (fun kw => containsSub (lowerStr combined) (lowerStr kw))).length

/-- Score every label of an indicator table against the combined text. -/
def scoreTable (table : List (String × List String)) (combined : String) :
    List (String × Nat) :=
  table.map (fun p => (p.1, keywordScore combined p.2))

/-- Python `max(scores, key=scores.get)`: the first label (in table order)
attaining the maximal score. -/
def argmaxFirst : List (String × Nat) → Option (String × Nat)
  | [] => none
  | (l, s) :: rest =>
    match argmaxFirst rest with
    | none => some (l, s)
    | some (l2, s2) => if s < s2 then some (l2, s2) else some (l, s)

/-- Lines 518 and 533: the winning label if any score is positive, else the
stated default (`"general"` for profile, `"discovery"` for readiness). -/
def bestLabel (table : List (String × List String)) (combined : String)
    (dflt : String) : String :=
  match argmaxFirst (scoreTable table combined) with
  | none => dflt
  | some (l, s) => if 0 < s then l else dflt

/-- The profile dict produced by `analyze_user_profile`.  The two counters
are `Option` because the default/early returns omit those keys. -/
structure UserProfile where
  profile : String
  needs : List String
  readiness : String
  conversationCount : Option Nat
  engagementScore : Option Nat
deriving DecidableEq, Repr

/-- Line 475: `{"profile": "new_visitor", "needs": [], "readiness":
"discovery"}` — the default returned when fewer than 2 rows are stored. -/
def defaultNewVisitorProfile : UserProfile :=
  { profile := "new_visitor", needs := [], readiness := "discovery",
    conversationCount := none, engagementScore := none }

/-- Lines 465–541 of `semantic_search.py`: `analyze_user_profile` for a
session whose stored history is `rows`, with the store and embedding
service available (the unavailable branches return the `"unknown"` default
before any analysis). -/
def analyzeUserProfile (rows : List ChatRow) : UserProfile :=
  if rows.length < 2 then defaultNewVisitorProfile
  else
    let combined := joinSpace (rows.map ChatRow.userMessage)
    { profile := bestLabel profileIndicators combined "general"
      needs := ((scoreTable needsIndicators combined).filter
                  (fun p => 0 < p.2)).map (fun p => p.1)
      readiness := bestLabel readinessIndicators combined "discovery"
      conversationCount := some rows.length
      engagementScore := some (min (rows.length * 10) 100) }

/-! ## Discovery orchestrator (`backend/openai_service.py`,
`OpenAIService.generate_discovery_response_with_actions`,
lines 376–839) -/

/-- One entry of `conversation_context`. -/
structure Turn where
  role : String
  content : String
deriving DecidableEq, Repr

/-- Line 434: `len([msg for msg in conversation_context if msg.get("role")
== "user"])` (0 when the context is empty/absent). -/
def countUserQueries (ctx : List Turn) : Nat :=
  (ctx.filter (fun t => t.role = "user")).length

/-- An action button dict (`type`, `label`, `description`). -/
structure ActionButton where
  type : String
  label : String
  description : String
deriving DecidableEq, Repr

/-- Lines 728–734 (also 742–748): the full five-action catalog substituted
when the parsed JSON lacks `actions`, or overriding a suspiciously short
(≤ 2) action list in full engagement. -/
def defaultFullActions : List ActionButton :=
  [⟨"calendar", "Find a time to meet with Derek", "Schedule a personalized demo"⟩,
   ⟨"solution_preview", "Explore HuddleUp Solution Preview", "See how HuddleUp works for your needs"⟩,
   ⟨"process_analysis", "See how your processes could work in HuddleUp", "Discover improvements"⟩,
   ⟨"research", "Receive research on HuddleUp benefits", "Get data on problems HuddleUp solves"⟩,
   ⟨"questions", "Ask more questions", "Continue exploring HuddleUp"⟩]

/-- Lines 736–739 (identically 808–811 and 831–834): the initial-engagement
two-action list. -/
def initialActions : List ActionButton :=
  [⟨"solution_preview", "Explore HuddleUp Solution Preview", "See how HuddleUp works for your needs"⟩,
   ⟨"questions", "Ask more questions", "Continue exploring HuddleUp"⟩]

/-- Lines 786–791: the full five-action catalog built on the JSON-parse
failure path (verbose descriptions). -/
def parseFailureFullActions : List ActionButton :=
  [⟨"calendar", "Find a time to meet with Derek", "Schedule a personalized demo with our learning collaboration expert"⟩,
   ⟨"solution_preview", "Explore HuddleUp Solution Preview", "See how HuddleUp works for your specific needs"⟩,
   ⟨"process_analysis", "See how your processes could work in HuddleUp", "Discover specific improvements for your current workflows"⟩,
   ⟨"research", "Receive research on HuddleUp benefits", "Get data on problems HuddleUp solves in your industry"⟩,
   ⟨"questions", "Ask more questions", "Continue exploring HuddleUp"⟩]

/-- Lines 823–828: the full five-action catalog on the outer-exception
fallback path. -/
def exceptionFullActions : List ActionButton :=
  [⟨"calendar", "Find a time to meet with Derek", "Schedule a demo"⟩,
   ⟨"solution_preview", "Explore HuddleUp Solution Preview", "See how HuddleUp works for your needs"⟩,
   ⟨"process_analysis", "See how your processes could work in HuddleUp", "Discover improvements"⟩,
   ⟨"research", "Receive research on HuddleUp benefits", "Get data on problems HuddleUp solves"⟩,
   ⟨"questions", "Ask more questions", "Continue exploring HuddleUp"⟩]

/-- Lines 794–805: readiness-driven reordering of the five fallback
actions (`actions[i]` indexing on the concrete five-element list).  The
`"ready"` branch `[actions[0]] + [actions[1]] + actions[2:]` is the
identity permutation. -/
def reorderByReadiness (readiness : String) : List ActionButton → List ActionButton
  | [a0, a1, a2, a3, a4] =>
    if readiness = "ready" then [a0, a1, a2, a3, a4]
    else if readiness = "evaluating" then [a1, a2, a3, a0, a4]
    else if readiness = "interested" then [a1, a3, a2, a0, a4]
    else [a0, a1, a2, a3, a4]
  | l => l

/-- Lines 783–811: the action list built on the JSON-parse failure path,
from the engagement stage (query count) and the profile readiness only. -/
def parseFailureActions (queryCount : Nat) (profile : Option UserProfile) :
    List ActionButton :=
  if 5 ≤ queryCount then
    match profile with
    | some p => reorderByReadiness p.readiness parseFailureFullActions
    | none => parseFailureFullActions
  else initialActions

/-- Lines 763–768: scan the knowledge-context lines for the first one
containing both `Result 1` and `similarity:`; extraction starts after it. -/
def knowledgeContentStart (lines : List String) : Option Nat :=
  (lines.findIdx? (fun l => containsSub l "Result 1" && containsSub l "similarity:")).map
    (fun i => i + 1)

/-- Lines 772–777: gather stripped non-empty lines until the next
`Result `-headed line. -/
def collectContentLines : List String → List String
  | [] => []
  | l :: rest =>
    if pyStrip l ≠ "" ∧ startsWithStr "Result " l = false then
      pyStrip l :: collectContentLines rest
    else if startsWithStr "Result " l then []
    else collectContentLines rest

/-- Lines 762–781: the content substituted for the raw completion text when
the Derek/schedule heuristic fires; `none` when no substitution happens. -/
def extractKnowledgeContent (knowledgeContext : String) : Option String :=
  let lines := splitLinesStr knowledgeContext
  match knowledgeContentStart lines with
  | none => none
  | some contentStart =>
    if contentStart < lines.length then
      let contentLines := collectContentLines (lines.drop contentStart)
      if contentLines ≠ [] then
        some (takeStr 800 (joinSpace contentLines) ++ "...")
      else none
    else none

/-- Lines 757–781: the response text on the JSON-parse failure path — the
stripped raw completion text, unless the knowledge context is non-empty and
the text mentions derek/schedule, in which case extracted knowledge-base
content replaces it. -/
def fallbackResponseText (knowledgeContext : String) (raw : String) : String :=
  let responseText := pyStrip raw
  if knowledgeContext ≠ "" ∧
      (containsSub (lowerStr responseText) "derek" ∨
       containsSub (lowerStr responseText) "schedule") then
    match extractKnowledgeContent knowledgeContext with
    | some t => t
    | none => responseText
  else responseText

/-- Line 723. -/
def discoveryDefaultResponse : String :=
  "I\x27d love to help you learn more about HuddleUp!"

/-- Line 837 (outer-exception fallback response). -/
def exceptionResponse : String :=
  "I\x27d love to help you learn more about HuddleUp! What specific challenges are you facing with your current learning or collaboration processes?"

/-- Line 388 (completion client not configured). -/
def clientUnavailableResponse : String :=
  "I apologize, but I\x27m currently unable to process your question. Please try again later."

/-- Outcome of the JSON-mode completion call, as seen after `json.loads`:
the call raised, returned text that parses to a JSON object (with optional
`response` / `actions` members), or returned unparsable text. -/
inductive CompletionOutcome where
  | raised
  | parsed (responseField : Option String) (actionsField : Option (List ActionButton))
  | unparsable (raw : String)
deriving DecidableEq, Repr

/-- What `generate_discovery_response_with_actions` returns. -/
structure DiscoveryResult where
  response : String
  actions : List ActionButton
deriving DecidableEq, Repr

/-- Lines 376–839 of `openai_service.py`:
`generate_discovery_response_with_actions`, with the completion call and
JSON parse modelled as the oracle `completion`, and the knowledge context
(the string assembled from semantic search before the call) as input. -/
def discoveryRespond (clientAvailable : Bool) (knowledgeContext : String)
    (ctx : List Turn) (profile : Option UserProfile)
    (completion : CompletionOutcome) : DiscoveryResult :=
  if clientAvailable then
    let queryCount := countUserQueries ctx
    match completion with
    | CompletionOutcome.parsed responseField actionsField =>
      { response := responseField.getD discoveryDefaultResponse
        actions :=
          match actionsField with
          | none => if 5 ≤ queryCount then defaultFullActions else initialActions
          | some acts =>
            if 5 ≤ queryCount ∧ acts.length ≤ 2 then defaultFullActions else acts }
    | CompletionOutcome.unparsable raw =>
      { response := fallbackResponseText knowledgeContext raw
        actions := parseFailureActions queryCount profile }
    | CompletionOutcome.raised =>
      { response := exceptionResponse
        actions := if 5 ≤ queryCount then exceptionFullActions else initialActions }
  else
    { response := clientUnavailableResponse, actions := [] }

/-- The catalog of the five full-engagement action types. -/
def catalogTypes : List String :=
  ["calendar", "solution_preview", "process_analysis", "research", "questions"]

/-- The type ordering the full-engagement fallback path actually produces,
per readiness label (read off lines 786–805). -/
def fullStageTypeOrder (profile : Option UserProfile) : List String :=
  match profile with
  | none => catalogTypes
  | some p =>
    if p.readiness = "ready" then catalogTypes
    else if p.readiness = "evaluating" then
      ["solution_preview", "process_analysis", "research", "calendar", "questions"]
    else if p.readiness = "interested" then
      ["solution_preview", "research", "process_analysis", "calendar", "questions"]
    else catalogTypes

/-- A collaborator environment in which every service is configured, the
vector index returns no matches, the keyword store returns no rows, and
direct generation succeeds with a fixed text. -/
def fullyAvailableEnv : ResolverEnv :=
  { semanticAvailable := true, databaseAvailable := true, openaiAvailable := true,
    semanticSearch := CallOutcome.returned ⟨true, []⟩,
    knowledgeSearch := CallOutcome.returned ⟨[], [], []⟩,
    enhance := CallOutcome.returned "", guidedGenerate := CallOutcome.returned "",
    directGenerate := CallOutcome.returned "Generated answer", saveOk := true }

/-- A conversation context holding exactly five user turns. -/
def fiveUserTurns : List Turn :=
  [⟨"user", "q1"⟩, ⟨"user", "q2"⟩, ⟨"user", "q3"⟩, ⟨"user", "q4"⟩, ⟨"user", "q5"⟩]

/-- A knowledge context in the exact shape `ask_faq`'s discovery sibling
assembles it (a `Result 1 (similarity: …):` header followed by content). -/
def sampleKnowledgeContext : String :=
  "KNOWLEDGE BASE CONTEXT:\n\nResult 1 (similarity: 0.900):\nHuddleUp costs five dollars.\n\n"

/-! ## Projection lemmas -/

/-- The persistence step never changes the response text. -/
@[simp] theorem persistStep_response (env : ResolverEnv) (st : ResolverState) :
    (persistStep env st).response = st.response := by
  unfold persistStep
  split <;> rfl

/-- The persistence step never changes the source tags. -/
@[simp] theorem persistStep_sources (env : ResolverEnv) (st : ResolverState) :
    (persistStep env st).sources = st.sources := by
  unfold persistStep
  split <;> rfl

/-- The persistence step never changes the strategy tag. -/
@[simp] theorem persistStep_searchMethod (env : ResolverEnv) (st : ResolverState) :
    (persistStep env st).searchMethod = st.searchMethod := by
  unfold persistStep
  split <;> rfl

/-- Generic form of the content-field priority scan: if position `i` of the
source list is the first usable field, the scan returns its trimmed value. -/
theorem firstUsable_eq_of_first (l : List (Option String)) (i : Nat)
    (hi : i < l.length)
    (hb : ∀ j (hj : j < l.length), j < i → usableContent (l.get ⟨j, hj⟩) = false)
    (hq : usableContent (l.get ⟨i, hi⟩) = true) :
    firstUsable l = some (pyStrip ((l.get ⟨i, hi⟩).getD "")) := by
  induction l generalizing i with
  | nil => exact absurd hi (by simp)
  | cons o rest ih =>
    cases i with
    | zero =>
      have hq0 : usableContent o = true := hq
      simp [firstUsable, hq0]
    | succ i' =>
      have h0 : usableContent o = false :=
        hb 0 (Nat.succ_pos _) (Nat.succ_pos _)
      rw [firstUsable, if_neg (by simp [h0])]
      exact ih i' (Nat.lt_of_succ_lt_succ hi)
        (fun j hj hlt => hb (j + 1) (Nat.succ_lt_succ hj) (Nat.succ_lt_succ hlt)) hq

/-! ## Claim theorems -/

/-- C1: for every question on which the vector index returns no matches and
the relational store returns no FAQ entries and no documents, `ask_faq`
reaches the generation rung: the returned strategy tag is `openai_direct`
when generation yields non-empty text, `no_response_available` when it
yields nothing, and `service_error` when the generation call raised. -/
theorem c1_empty_retrieval_reaches_generation (env : ResolverEnv) (q : String)
    (chunks : List DocRow)
    (hsem : env.semanticAvailable = true)
    (hsr : env.semanticSearch = CallOutcome.returned ⟨true, []⟩)
    (hdb : env.databaseAvailable = true)
    (hkb : env.knowledgeSearch = CallOutcome.returned ⟨[], [], chunks⟩)
    (hai : env.openaiAvailable = true) :
    (∀ v, env.directGenerate = CallOutcome.returned v → v ≠ "" →
       (askFaq env q).1.searchMethod = some "openai_direct") ∧
    (env.directGenerate = CallOutcome.returned "" →
       (askFaq env q).1.searchMethod = some "no_response_available") ∧
    (env.directGenerate = CallOutcome.raised →
       (askFaq env q).1.searchMethod = some "service_error") := by
  refine ⟨?_, ?_, ?_⟩
  · intro v hv hne
    simp [askFaq, semanticRung, keywordRung, generationRung, strTruthy,
      hsem, hsr, hdb, hkb, hai, hv, hne]
  · intro hv
    simp [askFaq, semanticRung, keywordRung, generationRung, strTruthy,
      hsem, hsr, hdb, hkb, hai, hv]
  · intro hv
    simp [askFaq, semanticRung, keywordRung, generationRung, strTruthy,
      hsem, hsr, hdb, hkb, hai, hv]

/-- C1 witness: with all services available, an empty vector result, an
empty keyword result and a successful generation, the tag is
`openai_direct`. -/
theorem c1_witness :
    (askFaq fullyAvailableEnv "What is HuddleUp?").1.searchMethod =
      some "openai_direct" :=
  (c1_empty_retrieval_reaches_generation fullyAvailableEnv "What is HuddleUp?" []
    rfl rfl rfl rfl rfl).1 "Generated answer" rfl (by decide)

/-- C2 (claim violated by the code): `ask_faq` performs no blank-question
validation — for the empty and the whitespace-only question, the very first
thing the resolver does is call the semantic-search collaborator with the
blank text, and the returned response is a normal success with no
validation error. -/
theorem c2_blank_question_reaches_collaborators :
    (askFaq fullyAvailableEnv "").2.head? = some (CallEvent.semanticSearch "") ∧
    (askFaq fullyAvailableEnv "   ").2.head? = some (CallEvent.semanticSearch "   ") ∧
    (askFaq fullyAvailableEnv "").1.success = true ∧
    (askFaq fullyAvailableEnv "").1.error = none := by
  decide

/-- C3: on a non-empty semantic result set, `ask_faq` inspects only the
single best match, checking content, text, answer, then the same three
metadata fields in that fixed order; the candidate answer is the trimmed
value of the first field whose trimmed length strictly exceeds 10, and no
later field can influence the outcome once one qualifies. -/
theorem c3_content_field_priority (m : SearchMatch) (rest : List SearchMatch)
    (i : Nat) (hi : i < (contentSources m).length)
    (hb : ∀ j (hj : j < (contentSources m).length), j < i →
      usableContent ((contentSources m).get ⟨j, hj⟩) = false)
    (hq : usableContent ((contentSources m).get ⟨i, hi⟩) = true) :
    semanticCandidate (m :: rest) =
      some (pyStrip (((contentSources m).get ⟨i, hi⟩).getD "")) := by
  simpa [semanticCandidate] using
    firstUsable_eq_of_first (contentSources m) i hi hb hq

/-- C3 witness: a best match whose `content` is too short but whose `text`
qualifies yields the trimmed `text`, regardless of the later `answer`
field. -/
theorem c3_witness :
    semanticCandidate
      [{ id := none, similarity := none,
         content := some "short", text := some "  a sufficiently long text  ",
         answer := some "another long enough string", metaContent := none,
         metaText := none, metaAnswer := none }] =
      some "a sufficiently long text" := by
  have h := c3_content_field_priority
    { id := none, similarity := none,
      content := some "short", text := some "  a sufficiently long text  ",
      answer := some "another long enough string", metaContent := none,
      metaText := none, metaAnswer := none }
    [] 1 (by decide)
    (by
      intro j hj hlt
      have hj0 : j = 0 := by omega
      subst hj0
      show usableContent (some "short") = false
      decide)
    (by decide)
  exact h.trans (by decide)

/-- C4 counterexample: at the shared threshold parameter 0.1 the pricing
query and the non-pricing query use the same effective threshold (the
`max(0.1, …)` clamp), so the pricing threshold is not strictly lower. -/
theorem c4_counterexample :
    isPricingQuery "what is the cost" = true ∧
    isPricingQuery "hello there" = false ∧
    ¬ (adjustedThreshold "what is the cost" 0.1 <
        adjustedThreshold "hello there" 0.1) := by
  refine ⟨by decide, by decide, ?_⟩
  have h1 : isPricingQuery "what is the cost" = true := by decide
  have h2 : isPricingQuery "hello there" = false := by decide
  simp only [adjustedThreshold, h1, h2, if_true, if_false, pyMax]
  norm_num

/-- C4 as amended: whenever the shared similarity-threshold parameter
exceeds 0.1, a query containing a pricing token uses a strictly lower
effective threshold than one containing none. -/
theorem c4_pricing_threshold_strictly_lower (q1 q2 : String) (t : ℚ)
    (h1 : isPricingQuery q1 = true) (h2 : isPricingQuery q2 = false)
    (ht : 0.1 < t) :
    adjustedThreshold q1 t < adjustedThreshold q2 t := by
  have e1 : adjustedThreshold q1 t = pyMax 0.1 (t - 0.2) := by
    simp [adjustedThreshold, h1]
  have e2 : adjustedThreshold q2 t = t := by
    simp [adjustedThreshold, h2]
  rw [e1, e2]
  simp only [pyMax]
  split
  · linarith
  · exact ht

/-- C4 witness: at the default threshold 0.6 the pricing query's effective
threshold is strictly lower. -/
theorem c4_witness :
    adjustedThreshold "pricing question" 0.6 <
      adjustedThreshold "hello there" 0.6 :=
  c4_pricing_threshold_strictly_lower "pricing question" "hello there" 0.6
    (by decide) (by decide) (by norm_num)

/-- C5 counterexample: for "How much does HuddleUp cost?" the pricing
relaxation does fire (effective threshold 0.4, not 0.6), but a single match
at similarity 0.15 is still below the relaxed threshold and is filtered
out, so the semantic rung accepts nothing and the ladder falls through. -/
theorem c5_counterexample :
    adjustedThreshold "How much does HuddleUp cost?" 0.6 = 0.4 ∧
    acceptedMatches "How much does HuddleUp cost?" 0.6 [⟨"match-1", 0.15⟩] = [] := by
  have h : isPricingQuery "How much does HuddleUp cost?" = true := by decide
  constructor
  · simp only [adjustedThreshold, h, if_true, pyMax]
    norm_num
  · simp only [acceptedMatches, adjustedThreshold, h, if_true, pyMax, List.filter]
    norm_num

/-- C5 as amended: a single match at similarity 0.45 — below the default
threshold 0.6 but at least the relaxed pricing threshold 0.4 — is accepted
by the semantic rung thanks to the pricing relaxation. -/
theorem c5_relaxed_threshold_accepts :
    acceptedMatches "How much does HuddleUp cost?" 0.6 [⟨"match-1", 0.45⟩] =
      [⟨"match-1", 0.45⟩] ∧ ¬ ((0.6 : ℚ) ≤ 0.45) := by
  have h : isPricingQuery "How much does HuddleUp cost?" = true := by decide
  constructor
  · simp only [acceptedMatches, adjustedThreshold, h, if_true, pyMax, List.filter]
    norm_num
  · norm_num

/-- C6 counterexample: on the deterministic full-engagement fallback path
with readiness `evaluating`, the first action is `solution_preview`, not
`process_analysis` as the claim states. -/
theorem c6_counterexample :
    (((discoveryRespond true "" fiveUserTurns
        (some { profile := "general", needs := [], readiness := "evaluating",
                conversationCount := none, engagementScore := none })
        (CompletionOutcome.unparsable "not json")).actions.map
          ActionButton.type).head? = some "solution_preview") ∧
    ("solution_preview" : String) ≠ "process_analysis" := by
  decide

/-- C6 as amended: on the JSON-parse-failure fallback path with query count
≥ 5, the action list contains all five catalog types exactly once, ordered
by readiness per the code: default catalog order (calendar first) for
`ready`, for `discovery`, and with no profile; `solution_preview, process_analysis,
research, calendar, questions` for `evaluating`; `solution_preview,
research, process_analysis, calendar, questions` for `interested`.  (On a
successful parse carrying ≥ 3 model-supplied actions the model's own list
is returned instead.) -/
theorem c6_full_stage_action_list (kc raw : String) (ctx : List Turn)
    (p : Option UserProfile) (hqc : 5 ≤ countUserQueries ctx) :
    ((discoveryRespond true kc ctx p (CompletionOutcome.unparsable raw)).actions.map
        ActionButton.type = fullStageTypeOrder p) ∧
    (∀ t ∈ catalogTypes, t ∈ fullStageTypeOrder p) ∧
    (fullStageTypeOrder p).Nodup ∧
    (∀ pr, p = some pr → pr.readiness = "ready" →
      (fullStageTypeOrder p).head? = some "calendar") := by
  have hact : (discoveryRespond true kc ctx p (CompletionOutcome.unparsable raw)).actions
      = parseFailureActions (countUserQueries ctx) p := by
    simp [discoveryRespond]
  refine ⟨?_, ?_, ?_, ?_⟩
  · rw [hact]
    unfold parseFailureActions
    rw [if_pos hqc]
    cases p with
    | none => decide
    | some pr =>
      simp only [reorderByReadiness, parseFailureFullActions, fullStageTypeOrder]
      split_ifs <;> decide
  · intro t ht
    have hmem : t = "calendar" ∨ t = "solution_preview" ∨ t = "process_analysis" ∨
        t = "research" ∨ t = "questions" := by
      simpa [catalogTypes] using ht
    cases p with
    | none => simpa [fullStageTypeOrder] using ht
    | some pr =>
      simp only [fullStageTypeOrder]
      split_ifs <;> (rcases hmem with rfl | rfl | rfl | rfl | rfl <;> simp [catalogTypes])
  · cases p with
    | none => decide
    | some pr =>
      simp only [fullStageTypeOrder]
      split_ifs <;> decide
  · intro pr hp hr
    subst hp
    simp only [fullStageTypeOrder, hr]
    decide

/-- C6 witness: five user turns and readiness `ready` give the full
catalog in default order, with `calendar` first. -/
theorem c6_witness :
    ((discoveryRespond true "" fiveUserTurns
        (some { profile := "general", needs := [], readiness := "ready",
                conversationCount := none, engagementScore := none })
        (CompletionOutcome.unparsable "oops")).actions.map ActionButton.type) =
      ["calendar", "solution_preview", "process_analysis", "research", "questions"] := by
  have h := c6_full_stage_action_list "" "oops" fiveUserTurns
    (some { profile := "general", needs := [], readiness := "ready",
            conversationCount := none, engagementScore := none })
    (by decide)
  exact h.1.trans (by decide)

/-- C7 counterexample: when the malformed completion text mentions
"schedule" and the knowledge context is non-empty, the returned response is
content extracted from the knowledge context, not the raw text. -/
theorem c7_counterexample :
    (discoveryRespond true sampleKnowledgeContext [] none
        (CompletionOutcome.unparsable "Would you like to schedule a call?")).response =
      "HuddleUp costs five dollars...." ∧
    ("HuddleUp costs five dollars...." : String) ≠
      "Would you like to schedule a call?" := by
  decide

/-- C7 as amended: on JSON-parse failure the call returns the (stripped)
raw completion text as the response — unless the knowledge context is
non-empty and the text mentions derek/schedule, in which case knowledge
content replaces it — and the action list is built purely from the
engagement stage and readiness label, identical for any raw text; no error
is raised. -/
theorem c7_parse_failure_returns_raw (kc raw : String) (ctx : List Turn)
    (p : Option UserProfile)
    (h : kc = "" ∨ (containsSub (lowerStr (pyStrip raw)) "derek" = false ∧
                    containsSub (lowerStr (pyStrip raw)) "schedule" = false)) :
    (discoveryRespond true kc ctx p (CompletionOutcome.unparsable raw)).response =
      pyStrip raw ∧
    (discoveryRespond true kc ctx p (CompletionOutcome.unparsable raw)).actions =
      parseFailureActions (countUserQueries ctx) p ∧
    (∀ raw2,
      (discoveryRespond true kc ctx p (CompletionOutcome.unparsable raw2)).actions =
      (discoveryRespond true kc ctx p (CompletionOutcome.unparsable raw)).actions) := by
  refine ⟨?_, by simp [discoveryRespond], fun raw2 => by simp [discoveryRespond]⟩
  have hresp : fallbackResponseText kc raw = pyStrip raw := by
    rcases h with h | ⟨h1, h2⟩
    · simp [fallbackResponseText, h]
    · simp [fallbackResponseText, h1, h2]
  simpa [discoveryRespond] using hresp

/-- C7 witness: with an empty knowledge context, the raw unparsable text
comes back verbatim and the initial-stage actions are attached. -/
theorem c7_witness :
    (discoveryRespond true "" [] none
        (CompletionOutcome.unparsable "plain text")).response = "plain text" := by
  have h := c7_parse_failure_returns_raw "" "plain text" [] none (Or.inl rfl)
  exact h.1.trans (by decide)

/-- C8: with fewer than 2 stored rows, `analyze_user_profile` returns the
default new-visitor profile with readiness `discovery`; with at least 2
rows it performs the keyword analysis over the concatenated user-authored
turn contents — the result depends only on the user messages (and the row
count), never on the assistant replies. -/
theorem c8_profile_default_and_user_analysis (rows : List ChatRow) :
    (rows.length < 2 →
      analyzeUserProfile rows = defaultNewVisitorProfile ∧
      (analyzeUserProfile rows).readiness = "discovery") ∧
    (∀ rows2 : List ChatRow, 2 ≤ rows.length →
      rows.map ChatRow.userMessage = rows2.map ChatRow.userMessage →
      analyzeUserProfile rows = analyzeUserProfile rows2) := by
  constructor
  · intro h
    constructor
    · simp [analyzeUserProfile, h]
    · simp [analyzeUserProfile, h, defaultNewVisitorProfile]
  · intro rows2 h hmap
    have hlen : rows.length = rows2.length := by
      have h' := congrArg List.length hmap
      simpa using h'
    unfold analyzeUserProfile
    rw [hmap, hlen]

/-- C8 witness: the empty history yields the default profile, and two
histories agreeing on user messages but not on bot replies analyze
identically. -/
theorem c8_witness :
    analyzeUserProfile [] = defaultNewVisitorProfile ∧
    analyzeUserProfile [⟨"i want a demo", "bot-a"⟩, ⟨"pricing please", "bot-b"⟩] =
      analyzeUserProfile [⟨"i want a demo", "bot-c"⟩, ⟨"pricing please", "bot-d"⟩] :=
  ⟨((c8_profile_default_and_user_analysis []).1 (by decide)).1,
   (c8_profile_default_and_user_analysis
      [⟨"i want a demo", "bot-a"⟩, ⟨"pricing please", "bot-b"⟩]).2
      [⟨"i want a demo", "bot-c"⟩, ⟨"pricing please", "bot-d"⟩]
      (by decide) (by decide)⟩

/-- C9: the outcome of the best-effort persistence step never changes the
returned `FAQResponse` — answer text, success flag, error, source tags and
strategy tag are identical whether the store write succeeds or fails. -/
theorem c9_persistence_failure_invisible (env : ResolverEnv) (q : String)
    (b : Bool) :
    (askFaq { env with saveOk := b } q).1 = (askFaq env q).1 := by
  rcases env with ⟨sa, da, oa, ss, ks, en, gg, dg, sv⟩
  cases sa <;> rfl

/-- C10: when the generation rung's completion call raises, `ask_faq`
still returns `success = true` with the fixed apology text and the
`service_error` tag; the body of `ask_faq` always returns `success = true`,
so `success = false` arises only when an exception escapes the whole
top-level handler. -/
theorem c10_caught_failure_keeps_success (env : ResolverEnv) (q : String) :
    (env.openaiAvailable = true → env.directGenerate = CallOutcome.raised →
        (keywordRung env q (semanticRung env q)).response = "" →
        ((askFaq env q).1.answer = apologyServiceError ∧
         (askFaq env q).1.success = true ∧
         (askFaq env q).1.searchMethod = some "service_error")) ∧
    (askFaq env q).1.success = true ∧
    (∀ oe : Option String, (askFaqTop oe env q).success = false → oe ≠ none) := by
  refine ⟨?_, ?_, ?_⟩
  · intro hai hdg hemp
    refine ⟨?_, ?_, ?_⟩ <;> simp [askFaq, generationRung, hemp, hai, hdg]
  · simp [askFaq]
  · intro oe hf
    cases oe with
    | some e => simp
    | none => simp [askFaqTop, askFaq] at hf

/-- C10 witness: with empty retrieval results and a raising generation
call, the response carries the `service_error` tag and `success = true`. -/
theorem c10_witness :
    (askFaq { fullyAvailableEnv with directGenerate := CallOutcome.raised }
        "anything").1.searchMethod = some "service_error" ∧
    (askFaq { fullyAvailableEnv with directGenerate := CallOutcome.raised }
        "anything").1.success = true := by
  have h := c10_caught_failure_keeps_success
    { fullyAvailableEnv with directGenerate := CallOutcome.raised } "anything"
  exact ⟨(h.1 rfl rfl (by decide)).2.2, h.2.1⟩

end HuddleUp
